import Mathlib

/-!
Verification of the wealthfolio device-sync core: a shallow embedding of the
error classifier (crates/device-sync/src/error.rs), the background broker sync
scheduler (apps/server/src/scheduler.rs), and the feature/platform capability
functions (apps/server/src/features.rs, apps/tauri/src/services/connect_service.rs,
apps/tauri/src/commands/platform.rs), with theorems checking the specified
behaviour of each operation.
-/

/-! ## String utilities

Executable counterparts of the Rust `str` operations the source uses:
`contains` (substring search), `trim` (strip surrounding whitespace) and
`trim_end_matches` (strip all trailing occurrences of a character). -/

/-- `leadingMatch needle hay` is true when `needle` is an initial run of `hay`. -/
def leadingMatch : List Char → List Char → Bool
  | [], _ => true
  | _ :: _, [] => false
  | a :: as, b :: bs => a == b && leadingMatch as bs

/-- `containsChars needle hay` is true when `needle` occurs contiguously in `hay`. -/
def containsChars (needle : List Char) : List Char → Bool
  | [] => needle.isEmpty
  | hay@(_ :: rest) => leadingMatch needle hay || containsChars needle rest

/-- Embedding of Rust `s.contains(sub)`: substring containment. -/
def strContains (s sub : String) : Bool :=
  containsChars sub.data s.data

/-- Embedding of Rust `str::trim`: drop whitespace at both ends. -/
def rustTrim (s : String) : String :=
  ⟨((s.data.dropWhile Char.isWhitespace).reverse.dropWhile Char.isWhitespace).reverse⟩

/-- Embedding of Rust `str::trim_end_matches(c)`: drop every trailing `c`. -/
def trimEndMatches (c : Char) (s : String) : String :=
  ⟨(s.data.reverse.dropWhile (fun ch => ch == c)).reverse⟩

/-! ## Error classifier (crates/device-sync/src/error.rs) -/

/-- Retry policy class for API failures (`ApiRetryClass`). -/
inductive ApiRetryClass
  | Retryable
  | Permanent
  | ReauthRequired
deriving DecidableEq, Repr

def SYNC_CURSOR_TOO_OLD : String := "SYNC_CURSOR_TOO_OLD"

def SYNC_SEGMENT_OBJECT_MISSING : String := "SYNC_SEGMENT_OBJECT_MISSING"

def SYNC_SEGMENT_OFFSET_INVALID : String := "SYNC_SEGMENT_OFFSET_INVALID"

def SYNC_SEGMENT_CHECKSUM_MISMATCH : String := "SYNC_SEGMENT_CHECKSUM_MISMATCH"

def SYNC_SEGMENT_STREAM_MISMATCH : String := "SYNC_SEGMENT_STREAM_MISMATCH"

def SYNC_EVENT_INDEX_MISMATCH : String := "SYNC_EVENT_INDEX_MISMATCH"

def SYNC_SNAPSHOT_OBJECT_MISSING : String := "SYNC_SNAPSHOT_OBJECT_MISSING"

def SYNC_SNAPSHOT_CHECKSUM_MISMATCH : String := "SYNC_SNAPSHOT_CHECKSUM_MISMATCH"

/-- Embedding of the free function `is_integrity_code`. -/
def is_integrity_code (code : String) : Bool :=
  code == SYNC_SEGMENT_OBJECT_MISSING ||
  code == SYNC_SEGMENT_OFFSET_INVALID ||
  code == SYNC_SEGMENT_CHECKSUM_MISMATCH ||
  code == SYNC_SEGMENT_STREAM_MISMATCH ||
  code == SYNC_EVENT_INDEX_MISMATCH ||
  code == SYNC_SNAPSHOT_OBJECT_MISSING ||
  code == SYNC_SNAPSHOT_CHECKSUM_MISMATCH

/-- Embedding of `DeviceSyncError`. The `Http` (reqwest) and `Json` (serde_json)
payloads are opaque to the classifier, so they are carried as message strings;
the optional structured `details` payload of `Api` is likewise opaque and
carried as an optional string. `status` is the `u16` HTTP status. -/
inductive DeviceSyncError
  | Http (message : String)
  | Json (message : String)
  | Api (status : Nat) (code : String) (message : String) (details : Option String)
  | InvalidRequest (message : String)
  | Auth (message : String)
deriving DecidableEq, Repr

namespace DeviceSyncError

/-- Embedding of the constructor `DeviceSyncError::api` (empty code, no details). -/
def api (status : Nat) (message : String) : DeviceSyncError :=
  .Api status "" message none

/-- Embedding of `DeviceSyncError::api_structured`. -/
def api_structured (status : Nat) (code message : String) (details : Option String) :
    DeviceSyncError :=
  .Api status code message details

/-- Embedding of `DeviceSyncError::status_code`. -/
def status_code : DeviceSyncError → Option Nat
  | .Api status _ _ _ => some status
  | _ => none

/-- Embedding of `DeviceSyncError::error_code`: the machine-readable code, when
the error is an API error with a non-empty code. -/
def error_code : DeviceSyncError → Option String
  | .Api _ code _ _ => if !code.isEmpty then some code else none
  | _ => none

/-- Embedding of `DeviceSyncError::is_integrity_error`: the error code matches
one of the seven integrity codes. -/
def is_integrity_error (e : DeviceSyncError) : Bool :=
  match e.error_code with
  | some code =>
      code == SYNC_SEGMENT_OBJECT_MISSING ||
      code == SYNC_SEGMENT_OFFSET_INVALID ||
      code == SYNC_SEGMENT_CHECKSUM_MISMATCH ||
      code == SYNC_SEGMENT_STREAM_MISMATCH ||
      code == SYNC_EVENT_INDEX_MISMATCH ||
      code == SYNC_SNAPSHOT_OBJECT_MISSING ||
      code == SYNC_SNAPSHOT_CHECKSUM_MISMATCH
  | none => false

/-- Embedding of `DeviceSyncError::is_stale_cursor`. -/
def is_stale_cursor (e : DeviceSyncError) : Bool :=
  e.error_code == some SYNC_CURSOR_TOO_OLD

/-- Embedding of `DeviceSyncError::retry_class`. The Rust range pattern
`500..=599` becomes the equivalent comparisons. -/
def retry_class : DeviceSyncError → ApiRetryClass
  | .Api status _ _ _ =>
      if status == 401 || status == 403 then .ReauthRequired
      else if status == 408 || status == 409 || status == 423 || status == 425 ||
              status == 429 then .Retryable
      else if 500 ≤ status && status ≤ 599 then .Retryable
      else .Permanent
  | .Http _ => .Retryable
  | .Json _ => .Permanent
  | .InvalidRequest _ => .Permanent
  | .Auth _ => .ReauthRequired

/-- Embedding of `DeviceSyncError::is_snapshot_id_validation_error`. -/
def is_snapshot_id_validation_error : DeviceSyncError → Bool
  | .Api status code message _ =>
      status == 400 &&
      (strContains message "snapshotId" || strContains code "snapshotId") &&
      (strContains message "Invalid UUID" || strContains message "invalid_format" ||
       strContains code "invalid_format")
  | _ => false

end DeviceSyncError

/-- The seven integrity codes, as listed by the spec. -/
def integrityCodes : List String :=
  [SYNC_SEGMENT_OBJECT_MISSING, SYNC_SEGMENT_OFFSET_INVALID,
   SYNC_SEGMENT_CHECKSUM_MISMATCH, SYNC_SEGMENT_STREAM_MISMATCH,
   SYNC_EVENT_INDEX_MISMATCH, SYNC_SNAPSHOT_OBJECT_MISSING,
   SYNC_SNAPSHOT_CHECKSUM_MISMATCH]

/-! ## Background broker sync scheduler (apps/server/src/scheduler.rs)

`run_scheduled_sync` is embedded as a pure function of the two external
effects it consumes: the Secret Store lookup of `"sync_refresh_token"`
(`Result<Option<String>, _>` in Rust, so `Except String (Option String)`
here) and the outcome `perform_broker_sync` would produce if it were called
(`Result<BrokerSyncResult, String>`). The function's observable behaviour is
whether the sync was actually performed and the list of log records emitted,
in order. -/

/-- Severity of a tracing log record used by the scheduler. -/
inductive LogLevel
  | debug
  | info
  | warn
deriving DecidableEq, Repr

/-- One emitted log record. -/
structure LogEntry where
  level : LogLevel
  message : String
deriving DecidableEq, Repr

/-- The `activities_synced` summary inside a broker sync result. -/
structure ActivitiesSyncSummary where
  activities_upserted : Nat
deriving DecidableEq, Repr

/-- The part of `perform_broker_sync`'s success value that the scheduler reads. -/
structure BrokerSyncResult where
  activities_synced : Option ActivitiesSyncSummary
deriving DecidableEq, Repr

/-- Observable outcome of one `run_scheduled_sync` invocation. -/
structure SchedulerOutcome where
  performed_sync : Bool
  logs : List LogEntry
deriving DecidableEq, Repr

/-- Embedding of the `has_token` computation in `run_scheduled_sync`:
`get_secret("sync_refresh_token").map(|t| t.is_some()).unwrap_or(false)`. -/
def has_sync_refresh_token (secretRes : Except String (Option String)) : Bool :=
  match secretRes with
  | .ok t => t.isSome
  | .error _ => false

/-- Embedding of the error-message test in `run_scheduled_sync`'s failure arm. -/
def scheduler_auth_message (e : String) : Bool :=
  strContains e "No refresh token" || strContains e "not authenticated" ||
  strContains e "Session expired"

/-- Embedding of `run_scheduled_sync`. -/
def run_scheduled_sync (secretRes : Except String (Option String))
    (syncRes : Except String BrokerSyncResult) : SchedulerOutcome :=
  let startLog : LogEntry := ⟨.info, "Running scheduled broker sync..."⟩
  let has_token := has_sync_refresh_token secretRes
  if !has_token then
    ⟨false, [startLog, ⟨.debug, "Scheduled sync skipped: no refresh token configured"⟩]⟩
  else
    match syncRes with
    | .ok result =>
        let activities_count :=
          (result.activities_synced.map ActivitiesSyncSummary.activities_upserted).getD 0
        ⟨true, [startLog,
          ⟨.info, s!"Scheduled broker sync completed: {activities_count} activities synced"⟩]⟩
    | .error e =>
        if scheduler_auth_message e then
          ⟨true, [startLog, ⟨.debug, "Scheduled sync skipped: user not authenticated"⟩]⟩
        else
          ⟨true, [startLog, ⟨.warn, s!"Scheduled broker sync failed: {e}"⟩]⟩

/-- Embedding of `SYNC_INTERVAL_SECS = 4 * 60 * 60`. -/
def SYNC_INTERVAL_SECS : Nat := 4 * 60 * 60

/-- Embedding of `INITIAL_DELAY_SECS = 60`. -/
def INITIAL_DELAY_SECS : Nat := 60

/-- One step in the timeline of the spawned scheduler task. -/
inductive SchedulerEvent
  | log_message (msg : String)
  | sleep_secs (secs : Nat)
  | interval_tick (period : Nat) (iteration : Nat)
  | run_sync (iteration : Nat)
deriving DecidableEq, Repr

/-- Embedding of the body of `start_broker_sync_scheduler`'s spawned task,
unrolled to `iterations` trips around the infinite loop: a startup log, a
sleep of `INITIAL_DELAY_SECS`, then for each iteration a tick of the
`SYNC_INTERVAL_SECS` interval followed by a `run_scheduled_sync` invocation. -/
def start_broker_sync_scheduler_trace (iterations : Nat) : List SchedulerEvent :=
  SchedulerEvent.log_message "Broker sync scheduler started (4-hour interval)" ::
  SchedulerEvent.sleep_secs INITIAL_DELAY_SECS ::
  (List.range iterations).flatMap
    (fun k => [SchedulerEvent.interval_tick SYNC_INTERVAL_SECS k, SchedulerEvent.run_sync k])

/-! ## Feature flags and platform capabilities

`cfg!(feature = ...)` and `cfg!(target_os = ...)` are compile-time booleans,
so the functions of features.rs, connect_service.rs and platform.rs are
embedded as functions of an explicit build configuration. -/

/-- A build configuration: the two cargo sync features and the target OS bits
the source consults. -/
structure BuildConfig where
  connect_sync : Bool
  device_sync : Bool
  target_ios : Bool
  target_android : Bool
deriving DecidableEq, Repr

/-- features.rs: `connect_sync_enabled`. -/
def connect_sync_enabled (cfg : BuildConfig) : Bool :=
  cfg.connect_sync

/-- features.rs: `device_sync_enabled`. -/
def device_sync_enabled (cfg : BuildConfig) : Bool :=
  cfg.device_sync

/-- features.rs: `cloud_sync_enabled`. -/
def cloud_sync_enabled (cfg : BuildConfig) : Bool :=
  connect_sync_enabled cfg || device_sync_enabled cfg

/-- connect_service.rs: `is_connect_sync_enabled`. -/
def is_connect_sync_enabled (cfg : BuildConfig) : Bool :=
  cfg.connect_sync

/-- connect_service.rs: `is_device_sync_enabled`. -/
def is_device_sync_enabled (cfg : BuildConfig) : Bool :=
  cfg.device_sync

/-- connect_service.rs: `is_cloud_sync_enabled`. -/
def is_cloud_sync_enabled (cfg : BuildConfig) : Bool :=
  is_connect_sync_enabled cfg || is_device_sync_enabled cfg

/-- platform.rs: `is_mobile`, i.e. `cfg!(any(target_os = "ios", target_os = "android"))`. -/
def is_mobile (cfg : BuildConfig) : Bool :=
  cfg.target_ios || cfg.target_android

/-- platform.rs: `is_desktop`, i.e. `cfg!(not(any(target_os = "ios", target_os = "android")))`. -/
def is_desktop (cfg : BuildConfig) : Bool :=
  !(cfg.target_ios || cfg.target_android)

/-- platform.rs: `PlatformCapabilities`. -/
structure PlatformCapabilities where
  connect_sync : Bool
  device_sync : Bool
  cloud_sync : Bool
deriving DecidableEq, Repr

/-- platform.rs: `PlatformInfo`. -/
structure PlatformInfo where
  os : String
  arch : String
  is_mobile : Bool
  is_desktop : Bool
  is_tauri : Bool
  capabilities : PlatformCapabilities
deriving DecidableEq, Repr

/-- Embedding of `get_platform`; `std::env::consts::OS` and `ARCH` are
compile-time strings passed in as parameters. -/
def get_platform (cfg : BuildConfig) (os arch : String) : PlatformInfo :=
  let connect_sync := cfg.connect_sync
  let device_sync := cfg.device_sync
  { os := os
    arch := arch
    is_mobile := cfg.target_ios || cfg.target_android
    is_desktop := !(cfg.target_ios || cfg.target_android)
    is_tauri := true
    capabilities :=
      { connect_sync := connect_sync
        device_sync := device_sync
        cloud_sync := connect_sync || device_sync } }

/-! ## Cloud API base URL (features.rs / connect_service.rs) -/

/-- Modelled from the spec: `DEFAULT_CLOUD_API_URL`, the compiled default cloud
API URL imported from the `wealthfolio_connect` crate, which is not part of
this source fragment. The spec treats it only as a fixed compiled default, so
any fixed non-empty URL without a trailing slash models it. -/
def DEFAULT_CLOUD_API_URL : String := "https://connect.wealthfolio.app"

/-- The normalization both copies of `cloud_api_base_url` apply to the
`CONNECT_API_URL` value: `v.trim().trim_end_matches('/')`. -/
def normalize_base_url (v : String) : String :=
  trimEndMatches '/' (rustTrim v)

/-- Embedding of `cloud_api_base_url` (features.rs reads `CONNECT_API_URL`
from the runtime environment, connect_service.rs via compile-time
`option_env!`; both apply this same computation to the optional value, passed
here as `env_connect_api_url`). -/
def cloud_api_base_url (cfg : BuildConfig) (env_connect_api_url : Option String) :
    Option String :=
  if !cloud_sync_enabled cfg then
    none
  else
    ((env_connect_api_url.map normalize_base_url).filter (fun v => !v.isEmpty)).orElse
      (fun _ => some DEFAULT_CLOUD_API_URL)

/-! ## Theorems -/

/-- Claim C1: for every `ApiFailure`, `retry_class` returns `ReauthRequired` on
status 401 or 403; `Retryable` on status 408, 409, 423, 425, 429 or any status
in [500,599]; and `Permanent` on every other status. -/
theorem retry_class_api_classification (status : Nat) (code message : String)
    (details : Option String) :
    DeviceSyncError.retry_class (.Api status code message details) =
      (if status = 401 ∨ status = 403 then ApiRetryClass.ReauthRequired
       else if status ∈ ([408, 409, 423, 425, 429] : List Nat) ∨
           (500 ≤ status ∧ status ≤ 599) then ApiRetryClass.Retryable
       else ApiRetryClass.Permanent) := by
  simp only [DeviceSyncError.retry_class, List.mem_cons, List.not_mem_nil, or_false,
    Bool.or_eq_true, beq_iff_eq, Bool.and_eq_true, decide_eq_true_eq]
  split_ifs <;> first | rfl | tauto

/-- Claim C5: for every non-Api error kind, `retry_class` is fixed by the kind
alone: `Http` (transport failure) is `Retryable`, `Json` (decode failure) is
`Permanent`, `InvalidRequest` is `Permanent`, `Auth` is `ReauthRequired`. -/
theorem retry_class_non_api_kinds (m : String) :
    DeviceSyncError.retry_class (.Http m) = ApiRetryClass.Retryable ∧
    DeviceSyncError.retry_class (.Json m) = ApiRetryClass.Permanent ∧
    DeviceSyncError.retry_class (.InvalidRequest m) = ApiRetryClass.Permanent ∧
    DeviceSyncError.retry_class (.Auth m) = ApiRetryClass.ReauthRequired :=
  ⟨rfl, rfl, rfl, rfl⟩

/-- Claim C2: `is_integrity_error` is true exactly when the machine-readable
code (`error_code`) is one of the seven integrity codes; in particular it is
false when the code is the cursor-too-old code and when the code is empty. -/
theorem is_integrity_error_iff_code (e : DeviceSyncError) :
    (e.is_integrity_error = true ↔ ∃ c, e.error_code = some c ∧ c ∈ integrityCodes) ∧
    (∀ status message details,
      (DeviceSyncError.Api status SYNC_CURSOR_TOO_OLD message details).is_integrity_error
        = false) ∧
    (∀ status message details,
      (DeviceSyncError.Api status "" message details).is_integrity_error = false) := by
  refine ⟨?_, ?_, ?_⟩
  · cases e with
    | Api st code m d =>
        by_cases hc : code.isEmpty
        · simp [DeviceSyncError.is_integrity_error, DeviceSyncError.error_code, hc]
        · simp only [DeviceSyncError.is_integrity_error, DeviceSyncError.error_code, hc,
            Bool.not_false, if_pos, Bool.or_eq_true, beq_iff_eq, integrityCodes,
            Option.some.injEq, List.mem_cons, List.not_mem_nil, or_false]
          constructor
          · intro h
            exact ⟨code, rfl, by tauto⟩
          · rintro ⟨c, rfl, hmem⟩
            tauto
    | Http m => simp [DeviceSyncError.is_integrity_error, DeviceSyncError.error_code]
    | Json m => simp [DeviceSyncError.is_integrity_error, DeviceSyncError.error_code]
    | InvalidRequest m =>
        simp [DeviceSyncError.is_integrity_error, DeviceSyncError.error_code]
    | Auth m => simp [DeviceSyncError.is_integrity_error, DeviceSyncError.error_code]
  · intro st m d
    rfl
  · intro st m d
    rfl

/-- Demonstration of `is_integrity_error_iff_code` at a concrete integrity
failure: a 409 with the segment-object-missing code is an integrity error. -/
theorem is_integrity_error_iff_code_witness :
    (DeviceSyncError.Api 409 SYNC_SEGMENT_OBJECT_MISSING "missing" none).is_integrity_error
      = true :=
  (is_integrity_error_iff_code
      (DeviceSyncError.Api 409 SYNC_SEGMENT_OBJECT_MISSING "missing" none)).1.mpr
    ⟨SYNC_SEGMENT_OBJECT_MISSING, by decide, by decide⟩

/-- Claim C3: `is_stale_cursor` is true exactly when the machine-readable code
is `SYNC_CURSOR_TOO_OLD`, and no error is both a stale-cursor and an
integrity error. -/
theorem is_stale_cursor_iff (e : DeviceSyncError) :
    (e.is_stale_cursor = true ↔ e.error_code = some SYNC_CURSOR_TOO_OLD) ∧
    ¬(e.is_stale_cursor = true ∧ e.is_integrity_error = true) := by
  have hiff : e.is_stale_cursor = true ↔ e.error_code = some SYNC_CURSOR_TOO_OLD := by
    simp [DeviceSyncError.is_stale_cursor]
  refine ⟨hiff, ?_⟩
  rintro ⟨hs, hi⟩
  have h1 : e.error_code = some SYNC_CURSOR_TOO_OLD := hiff.mp hs
  simp only [DeviceSyncError.is_integrity_error, h1] at hi
  revert hi
  decide

/-- Demonstration of `is_stale_cursor_iff` at the concrete structured 409 error
the source tests use: stale-cursor and integrity cannot hold together. -/
theorem is_stale_cursor_iff_witness :
    ¬((DeviceSyncError.api_structured 409 SYNC_CURSOR_TOO_OLD "Cursor too old" none).is_stale_cursor
        = true ∧
      (DeviceSyncError.api_structured 409 SYNC_CURSOR_TOO_OLD "Cursor too old" none).is_integrity_error
        = true) :=
  (is_stale_cursor_iff
    (DeviceSyncError.api_structured 409 SYNC_CURSOR_TOO_OLD "Cursor too old" none)).2

/-- Claim C4: `is_snapshot_id_validation_error` holds exactly on an `Api` error
with status 400 whose message or code contains "snapshotId" and whose message
contains "Invalid UUID" or "invalid_format" or whose code contains
"invalid_format"; concretely, it is true at status 400 with a message
containing "snapshotId" and "Invalid UUID", false at status 401 with the same
message, and false at status 400 without "snapshotId" in the message. -/
theorem is_snapshot_id_validation_error_spec :
    (∀ status code message details,
      (DeviceSyncError.Api status code message details).is_snapshot_id_validation_error
          = true ↔
        (status = 400 ∧
         (strContains message "snapshotId" = true ∨ strContains code "snapshotId" = true) ∧
         (strContains message "Invalid UUID" = true ∨
          strContains message "invalid_format" = true ∨
          strContains code "invalid_format" = true))) ∧
    (DeviceSyncError.api 400 "path snapshotId Invalid UUID").is_snapshot_id_validation_error
      = true ∧
    (DeviceSyncError.api 401 "path snapshotId Invalid UUID").is_snapshot_id_validation_error
      = false ∧
    (DeviceSyncError.api 400 "path Invalid UUID").is_snapshot_id_validation_error = false := by
  refine ⟨?_, by decide, by decide, by decide⟩
  intro status code message details
  simp only [DeviceSyncError.is_snapshot_id_validation_error, Bool.and_eq_true,
    Bool.or_eq_true, beq_iff_eq]
  tauto

/-- Demonstration of `is_snapshot_id_validation_error_spec` at status 400 with
a snapshotId / Invalid UUID message. -/
theorem is_snapshot_id_validation_error_spec_witness :
    (DeviceSyncError.api 400 "path snapshotId Invalid UUID").is_snapshot_id_validation_error
      = true :=
  is_snapshot_id_validation_error_spec.2.1

/-- Claim C6: when the Secret Store reports no stored sync credential (the
secret is absent or the store errs), the scheduled sync pass returns before
performing any sync operation and logs nothing at warning level. -/
theorem run_scheduled_sync_no_credential (secretRes : Except String (Option String))
    (syncRes : Except String BrokerSyncResult)
    (h : secretRes = .ok none ∨ ∃ msg, secretRes = .error msg) :
    (run_scheduled_sync secretRes syncRes).performed_sync = false ∧
    ∀ entry ∈ (run_scheduled_sync secretRes syncRes).logs, entry.level ≠ LogLevel.warn := by
  have htok : has_sync_refresh_token secretRes = false := by
    rcases h with h | ⟨m, h⟩ <;> subst h <;> rfl
  refine ⟨by simp [run_scheduled_sync, htok], ?_⟩
  intro entry hentry
  simp [run_scheduled_sync, htok] at hentry
  rcases hentry with h | h <;> subst h <;> decide

/-- Demonstration of `run_scheduled_sync_no_credential` with the secret absent. -/
theorem run_scheduled_sync_no_credential_witness :
    (run_scheduled_sync (.ok none) (.ok ⟨none⟩)).performed_sync = false ∧
    ∀ entry ∈ (run_scheduled_sync (.ok none) (.ok ⟨none⟩)).logs,
      entry.level ≠ LogLevel.warn :=
  run_scheduled_sync_no_credential (.ok none) (.ok ⟨none⟩) (Or.inl rfl)

/-- Claim C7: a failed scheduled pass is classified by its message: an
auth-flavoured message ("No refresh token" / "not authenticated" /
"Session expired") is logged at debug severity with no warning, any other
failure is logged at warning severity, and in both cases the function returns
normally with its start log plus exactly one outcome log. -/
theorem run_scheduled_sync_failure_classification
    (secretRes : Except String (Option String)) (e : String)
    (htok : has_sync_refresh_token secretRes = true) :
    ((scheduler_auth_message e = true →
        (∀ entry ∈ (run_scheduled_sync secretRes (.error e)).logs,
          entry.level ≠ LogLevel.warn) ∧
        ∃ entry ∈ (run_scheduled_sync secretRes (.error e)).logs,
          entry.level = LogLevel.debug) ∧
     (scheduler_auth_message e = false →
        ∃ entry ∈ (run_scheduled_sync secretRes (.error e)).logs,
          entry.level = LogLevel.warn)) ∧
    (run_scheduled_sync secretRes (.error e)).logs.length = 2 := by
  by_cases ha : scheduler_auth_message e
  · refine ⟨⟨fun _ => ⟨?_, ?_⟩, fun hcon => by simp [ha] at hcon⟩, ?_⟩
    · intro entry hentry
      simp [run_scheduled_sync, htok, ha] at hentry
      rcases hentry with h | h <;> subst h <;> decide
    · refine ⟨⟨LogLevel.debug, "Scheduled sync skipped: user not authenticated"⟩, ?_, rfl⟩
      simp [run_scheduled_sync, htok, ha]
    · simp [run_scheduled_sync, htok, ha]
  · refine ⟨⟨fun hcon => by simp [ha] at hcon, fun _ => ?_⟩, ?_⟩
    · refine ⟨⟨LogLevel.warn, s!"Scheduled broker sync failed: {e}"⟩, ?_, rfl⟩
      simp [run_scheduled_sync, htok, ha]
    · simp [run_scheduled_sync, htok, ha]

/-- Demonstration of `run_scheduled_sync_failure_classification` on a
non-auth failure: a warning is logged. -/
theorem run_scheduled_sync_failure_classification_witness :
    ∃ entry ∈ (run_scheduled_sync (.ok (some "token")) (.error "boom")).logs,
      entry.level = LogLevel.warn :=
  ((run_scheduled_sync_failure_classification (.ok (some "token")) "boom" rfl).1.2)
    (by decide)

/-- Claim C8: the background trigger's timing parameters are the fixed
constants 4 hours (14400 s) and 60 s, every interval tick of the scheduler
trace uses the 14400 s period, and the initial-delay sleep occurs strictly
before every sync run. -/
theorem scheduler_timing_constants :
    SYNC_INTERVAL_SECS = 14400 ∧ INITIAL_DELAY_SECS = 60 ∧
    (∀ n p k,
      SchedulerEvent.interval_tick p k ∈ start_broker_sync_scheduler_trace n →
        p = SYNC_INTERVAL_SECS) ∧
    (∀ (n i k : Nat),
      (start_broker_sync_scheduler_trace n)[i]? = some (SchedulerEvent.run_sync k) →
        ∃ j : Nat, j < i ∧ (start_broker_sync_scheduler_trace n)[j]? =
          some (SchedulerEvent.sleep_secs INITIAL_DELAY_SECS)) := by
  refine ⟨rfl, rfl, ?_, ?_⟩
  · intro n p k h
    simp only [start_broker_sync_scheduler_trace, List.mem_cons, List.mem_flatMap,
      List.mem_range] at h
    rcases h with h | h | ⟨a, _, h⟩ <;> simp_all
  · intro n i k h
    match i with
    | 0 => simp [start_broker_sync_scheduler_trace] at h
    | 1 => simp [start_broker_sync_scheduler_trace] at h
    | j + 2 => exact ⟨1, by omega, by simp [start_broker_sync_scheduler_trace]⟩

/-- Demonstration of `scheduler_timing_constants`: in the one-iteration trace,
the sync run at index 3 is preceded by the 60 s initial-delay sleep. -/
theorem scheduler_timing_constants_witness :
    ∃ j, j < 3 ∧ (start_broker_sync_scheduler_trace 1)[j]? =
      some (SchedulerEvent.sleep_secs INITIAL_DELAY_SECS) :=
  scheduler_timing_constants.2.2.2 1 3 0 (by rfl)

/-- The head of `dropWhile p` never satisfies `p`. -/
theorem head_dropWhile_false {α : Type} (p : α → Bool) (l : List α) (x : α)
    (h : (l.dropWhile p).head? = some x) : p x = false := by
  induction l with
  | nil => simp [List.dropWhile] at h
  | cons a t ih =>
      rw [List.dropWhile_cons] at h
      split at h
      · exact ih h
      · simp only [List.head?_cons, Option.some.injEq] at h
        subst h
        simp_all

/-- `trimEndMatches c` leaves no trailing `c`. -/
theorem trimEndMatches_no_trailing (c : Char) (s : String) (ch : Char)
    (h : (trimEndMatches c s).data.getLast? = some ch) : ch ≠ c := by
  unfold trimEndMatches at h
  rw [show (String.mk ((s.data.reverse.dropWhile (fun x => x == c)).reverse)).data =
      (s.data.reverse.dropWhile (fun x => x == c)).reverse from rfl,
    List.getLast?_reverse] at h
  have hf := head_dropWhile_false (fun x => x == c) s.data.reverse ch h
  simpa using hf

/-- Claim C9 counterexample: with a sync feature enabled and
`CONNECT_API_URL` set to `"/"`, the environment value is present and
non-empty after whitespace trimming, yet `cloud_api_base_url` does not
return the whitespace-and-slash-stripped value (which would be the empty
string); the code falls back to the compiled default URL instead. -/
theorem cloud_api_base_url_slash_counterexample :
    ((some "/" : Option String) ≠ none ∧ rustTrim "/" ≠ "") ∧
    normalize_base_url "/" = "" ∧
    cloud_api_base_url ⟨true, false, false, false⟩ (some "/") ≠
      some (normalize_base_url "/") ∧
    cloud_api_base_url ⟨true, false, false, false⟩ (some "/") =
      some DEFAULT_CLOUD_API_URL := by
  refine ⟨⟨by decide, by decide⟩, by decide, by decide, by decide⟩

/-- Claim C9 (amended): `cloud_api_base_url` returns `none` exactly when
neither sync feature is enabled; otherwise it returns the trimmed
`CONNECT_API_URL` value (surrounding whitespace and all trailing slashes
removed) when that value is present and still non-empty after this
normalization, and the compiled default URL otherwise; every returned URL is
non-empty and does not end in a slash. -/
theorem cloud_api_base_url_amended_spec (cfg : BuildConfig) (env : Option String) :
    (cloud_api_base_url cfg env = none ↔ cloud_sync_enabled cfg = false) ∧
    (cloud_sync_enabled cfg = true →
      (env = none → cloud_api_base_url cfg env = some DEFAULT_CLOUD_API_URL) ∧
      ∀ v, env = some v →
        (normalize_base_url v ≠ "" →
          cloud_api_base_url cfg env = some (normalize_base_url v)) ∧
        (normalize_base_url v = "" →
          cloud_api_base_url cfg env = some DEFAULT_CLOUD_API_URL)) ∧
    (∀ u, cloud_api_base_url cfg env = some u →
      u ≠ "" ∧ ∀ ch, u.data.getLast? = some ch → ch ≠ '/') := by
  have hdef : ∀ ch, DEFAULT_CLOUD_API_URL.data.getLast? = some ch → ch ≠ '/' := by
    intro ch h
    have hp : DEFAULT_CLOUD_API_URL.data.getLast? = some 'p' := by decide
    rw [hp] at h
    injection h with h
    subst h
    decide
  by_cases hcs : cloud_sync_enabled cfg
  · cases env with
    | none =>
        refine ⟨by simp [cloud_api_base_url, hcs, Option.orElse], ?_, ?_⟩
        · exact fun _ => ⟨fun _ => by simp [cloud_api_base_url, hcs, Option.orElse],
            fun v hv => by simp at hv⟩
        · intro u hu
          simp [cloud_api_base_url, hcs, Option.orElse] at hu
          subst hu
          exact ⟨by decide, hdef⟩
    | some v =>
        by_cases hemp : (normalize_base_url v).isEmpty
        · have hv : normalize_base_url v = "" := (String.isEmpty_iff _).mp hemp
          refine ⟨by simp [cloud_api_base_url, hcs, Option.orElse, Option.filter, hemp],
            ?_, ?_⟩
          · refine fun _ => ⟨fun hc => by simp at hc, fun w hw => ?_⟩
            obtain rfl : v = w := by injection hw
            exact ⟨fun hne => absurd hv hne, fun _ => by
              simp [cloud_api_base_url, hcs, Option.orElse, Option.filter, hemp]⟩
          · intro u hu
            simp [cloud_api_base_url, hcs, Option.orElse, Option.filter, hemp] at hu
            subst hu
            exact ⟨by decide, hdef⟩
        · have hv : normalize_base_url v ≠ "" :=
            fun heq => hemp ((String.isEmpty_iff _).mpr heq)
          refine ⟨by simp [cloud_api_base_url, hcs, Option.orElse, Option.filter, hemp],
            ?_, ?_⟩
          · refine fun _ => ⟨fun hc => by simp at hc, fun w hw => ?_⟩
            obtain rfl : v = w := by injection hw
            exact ⟨fun _ => by
                simp [cloud_api_base_url, hcs, Option.orElse, Option.filter, hemp],
              fun heq => absurd heq hv⟩
          · intro u hu
            simp [cloud_api_base_url, hcs, Option.orElse, Option.filter, hemp] at hu
            subst hu
            refine ⟨hv, ?_⟩
            intro ch hch
            exact trimEndMatches_no_trailing '/' (rustTrim v) ch hch
  · have hcs' : cloud_sync_enabled cfg = false := by simpa using hcs
    refine ⟨by simp [cloud_api_base_url, hcs'], ?_, ?_⟩
    · intro hc
      rw [hc] at hcs'
      cases hcs'
    · intro u hu
      simp [cloud_api_base_url, hcs'] at hu

/-- Demonstration of `cloud_api_base_url_amended_spec` on a concrete messy
environment value: whitespace and trailing slashes are stripped. -/
theorem cloud_api_base_url_amended_spec_witness :
    cloud_api_base_url ⟨true, false, false, false⟩ (some " https://api.example.com// ") =
      some (normalize_base_url " https://api.example.com// ") ∧
    normalize_base_url " https://api.example.com// " = "https://api.example.com" :=
  ⟨(((cloud_api_base_url_amended_spec ⟨true, false, false, false⟩
        (some " https://api.example.com// ")).2.1 rfl).2
      " https://api.example.com// " rfl).1 (by decide),
   by decide⟩

/-- Claim C10: the reported platform capabilities are internally consistent
for every build configuration: `cloud_sync` equals the disjunction of
`connect_sync` and `device_sync` in `get_platform`, in features.rs and in
connect_service.rs, and `is_mobile` / `is_desktop` are exact negations of each
other and agree with the corresponding `get_platform` fields. -/
theorem platform_capabilities_consistent (cfg : BuildConfig) (os arch : String) :
    ((get_platform cfg os arch).capabilities.cloud_sync =
      ((get_platform cfg os arch).capabilities.connect_sync ||
       (get_platform cfg os arch).capabilities.device_sync)) ∧
    cloud_sync_enabled cfg = (connect_sync_enabled cfg || device_sync_enabled cfg) ∧
    is_cloud_sync_enabled cfg = (is_connect_sync_enabled cfg || is_device_sync_enabled cfg) ∧
    is_mobile cfg = !(is_desktop cfg) ∧
    (get_platform cfg os arch).is_mobile = is_mobile cfg ∧
    (get_platform cfg os arch).is_desktop = is_desktop cfg := by
  refine ⟨rfl, rfl, rfl, ?_, rfl, rfl⟩
  simp [is_mobile, is_desktop]
